import Mathlib

/-
Verification of the gender-classifier FastAPI service (src/api/app.py).

The embedding models the request handlers and the person-count filter as
pure functions.  Calls into external collaborators (image decoding, the
DETR person detector, the ViT classifier stack) are represented by their
outcomes, carried inside each request: `Except.error msg` stands for a
raised exception with message `msg`, `Except.ok v` for a normal return.
Python floats are modelled as exact rationals; the thresholds 0.7, 0.05
and 0.2 are exactly representable.  A JSON object is modelled as a
structure whose optional fields are `Option`s, `none` meaning the key is
absent from the dict the handler builds.
-/

namespace GenderApp

/-- An axis-aligned bounding box in pixel coordinates: the `box` dict of
one detector output item. -/
structure Box where
  xmin : ℚ
  ymin : ℚ
  xmax : ℚ
  ymax : ℚ
deriving DecidableEq

/-- One detector output item: label, confidence score and box. -/
structure Detection where
  label : String
  score : ℚ
  box : Box
deriving DecidableEq

/-- A decoded RGB image, reduced to the data the filter reads from it:
`image.size` = (width, height). -/
structure Img where
  width : ℚ
  height : ℚ
deriving DecidableEq

/-- Whether `pat` occurs at the head of `s` (`List Char` version of a
string prefix test). -/
def charsStartWith : List Char → List Char → Bool
  | [], _ => true
  | _ :: _, [] => false
  | p :: ps, c :: cs => p == c && charsStartWith ps cs

/-- Python `pat in s` on strings: `pat` occurs contiguously somewhere in
`s`. -/
def charsContain (pat : List Char) : List Char → Bool
  | [] => charsStartWith pat []
  | c :: rest => charsStartWith pat (c :: rest) || charsContain pat rest

/-- Python `s.lower()`, character by character. -/
def pyLower (s : String) : List Char := s.toList.map Char.toLower

/-- Python `s.startswith(pre)`. -/
def pyStartsWith (s pre : String) : Bool := charsStartWith pre.toList s.toList

/-- Line 103: the Python membership test of the substring person
in the lowercased detection label. -/
def labelHasPerson (label : String) : Bool :=
  charsContain "person".toList (pyLower label)

/-- Lines 103-117, the body of the loop in `count_people_in_image`:
whether one detection is counted as a valid person for an image of the
given size. -/
def isValidPerson (image : Img) (detection : Detection) : Bool :=
  if labelHasPerson detection.label then
    let score := detection.score
    let box := detection.box
    let det_width := box.xmax - box.xmin
    let det_height := box.ymax - box.ymin
    let relative_area := (det_width * det_height) / (image.width * image.height)
    let relative_height := det_height / image.height
    decide (score > 0.7 ∧ relative_area > 0.05 ∧ relative_height > 0.2)
  else
    false

/-- Lines 100-119: the accumulation loop over the detector output. -/
def countValidPeople (image : Img) (detections : List Detection) : Nat :=
  detections.foldl
    (fun valid_people detection =>
      if isValidPerson image detection then valid_people + 1 else valid_people)
    0

/-- Lines 93-123, `count_people_in_image`: the detector call either
returns a list of detections or raises; the except clause returns 1. -/
def count_people_in_image (image : Img)
    (detector : Except String (List Detection)) : Nat :=
  match detector with
  | .ok detections => countValidPeople image detections
  | .error _ => 1

/-- The output of the classifier stack for one image: the softmax probability
row `predictions[0]` and the `id2label` mapping of the model. -/
structure ClassOut where
  probs : List ℚ
  id2label : Nat → String

/-- Torch `predictions.max().item()`: the greatest entry of the row. -/
def listMax : List ℚ → ℚ
  | [] => 0
  | [p] => p
  | p :: q :: rest => max p (listMax (q :: rest))

/-- Torch `predictions.argmax().item()`: index of the first greatest
entry of the row. -/
def argmaxIdx : List ℚ → Nat
  | [] => 0
  | [_] => 0
  | p :: q :: rest =>
    if listMax (q :: rest) > p then argmaxIdx (q :: rest) + 1 else 0

/-- The JSON body of a 200 response from POST /predict.  `none` in an
`Option` field means the dict built by the handler has no such key. -/
structure PredictBody where
  prediction : Option String
  confidence : ℚ
  person_count : Nat
  probabilities : Option (List (String × ℚ))
  error : Option String
deriving DecidableEq

/-- An HTTP outcome: a 200 body, or a raised HTTPException with a status
code and a detail string. -/
inductive HttpResult (α : Type) where
  | ok (body : α)
  | httpError (status : Nat) (detail : String)
deriving DecidableEq

/-- One uploaded file for POST /predict together with the outcomes of
the external calls the handler makes on it: decoding the bytes, the
person detector, and the classifier stack.  `Except.error` marks a
raised exception with its message. -/
structure ImageJob where
  content_type : String
  decoded : Except String Img
  detections : Except String (List Detection)
  classifier : Except String ClassOut

/-- Lines 187-207: run the classifier on a single-person image and build
the success body.  `predictions[0][1]` raises an IndexError when the row
has fewer than two entries, hence the length guard. -/
def classifySingle (cls : ClassOut) (person_count : Nat) :
    Except String PredictBody :=
  if 2 ≤ cls.probs.length then
    .ok { prediction := some (cls.id2label (argmaxIdx cls.probs))
          confidence := listMax cls.probs
          person_count := person_count
          probabilities := some
            [("male", cls.probs.getD 0 0), ("female", cls.probs.getD 1 0)]
          error := none }
  else
    .error "index 1 is out of bounds for dimension 0 with size 1"

/-- Lines 164-207, the try block of `predict_gender`. -/
def predictFlow (job : ImageJob) : Except String PredictBody :=
  match job.decoded with
  | .error e => .error e
  | .ok image =>
    let person_count := count_people_in_image image job.detections
    if person_count == 0 then
      .ok { error := some "No person detected in image"
            person_count := person_count
            prediction := none
            confidence := 0
            probabilities := none }
    else if person_count > 1 then
      .ok { error := some ("Multiple people detected (" ++
              toString person_count ++ " people). Please use single-person images.")
            person_count := person_count
            prediction := none
            confidence := 0
            probabilities := none }
    else
      match job.classifier with
      | .error e => .error e
      | .ok cls => classifySingle cls person_count

/-- Lines 149-211, POST /predict: the content-type guard raises a 400
before the try block; any exception escaping the try block is re-raised
as a 500 whose detail wraps the message. -/
def predict_gender (job : ImageJob) : HttpResult PredictBody :=
  if !(pyStartsWith job.content_type "image/") then
    .httpError 400 "File must be an image"
  else
    match predictFlow job with
    | .ok body => .ok body
    | .error e => .httpError 500 ("Prediction failed: " ++ e)

/-- One uploaded file for POST /predict-batch, with its filename and the
outcomes of the external calls on it. -/
structure BatchJob where
  filename : String
  content_type : String
  decoded : Except String Img
  detections : Except String (List Detection)
  classifier : Except String ClassOut

/-- One entry of the `results` list of POST /predict-batch.  `none` in
an `Option` field means the dict the loop appends has no such key. -/
structure BatchItemResult where
  filename : String
  prediction : Option String
  confidence : ℚ
  person_count : Option Nat
  probabilities : Option (List (String × ℚ))
  error : Option String
deriving DecidableEq

/-- Lines 224-267, the try block body for one batch file.  The batch
success path reads only `argmax`/`max` of the row (no `[0][1]`
indexing), which raise only on an empty row. -/
def batchItemFlow (job : BatchJob) : Except String BatchItemResult :=
  if !(pyStartsWith job.content_type "image/") then
    .ok { filename := job.filename
          error := some "File must be an image"
          prediction := none
          confidence := 0
          person_count := none
          probabilities := none }
  else
    match job.decoded with
    | .error e => .error e
    | .ok image =>
      let person_count := count_people_in_image image job.detections
      if person_count != 1 then
        .ok { filename := job.filename
              error := some ("Expected 1 person, found " ++ toString person_count)
              person_count := some person_count
              prediction := none
              confidence := 0
              probabilities := none }
      else
        match job.classifier with
        | .error e => .error e
        | .ok cls =>
          if 1 ≤ cls.probs.length then
            .ok { filename := job.filename
                  prediction := some (cls.id2label (argmaxIdx cls.probs))
                  confidence := listMax cls.probs
                  person_count := some person_count
                  probabilities := none
                  error := none }
          else
            .error "max(): Expected reduction dim to be specified for input.numel() == 0"

/-- Lines 223-275, one iteration of the loop in `predict_batch`: the
except clause turns a raised exception into an error entry. -/
def processBatchItem (job : BatchJob) : BatchItemResult :=
  match batchItemFlow job with
  | .ok r => r
  | .error e =>
    { filename := job.filename
      error := some e
      prediction := none
      confidence := 0
      person_count := none
      probabilities := none }

/-- Lines 213-277, POST /predict-batch: the size guard raises a 400,
otherwise the loop accumulates one entry per file in order. -/
def predict_batch (files : List BatchJob) : HttpResult (List BatchItemResult) :=
  if files.length > 10 then
    .httpError 400 "Maximum 10 images per batch"
  else
    .ok (files.map processBatchItem)

/-! Concrete test data -/

/-- A 100 by 100 image. -/
def squareImage : Img := ⟨100, 100⟩

/-- A detection that passes every filter threshold in `squareImage`:
relative area 0.25, relative height 0.5, score 0.9. -/
def goodDetection : Detection := ⟨"person", 9/10, ⟨0, 0, 50, 50⟩⟩

/-- A detection labelled Personnel, same score and box. -/
def personnelDetection : Detection := ⟨"Personnel", 9/10, ⟨0, 0, 50, 50⟩⟩

/-- A detection labelled dog, same score and box. -/
def dogDetection : Detection := ⟨"dog", 9/10, ⟨0, 0, 50, 50⟩⟩

/-- A person detection whose score fails the 0.7 threshold. -/
def faintDetection : Detection := ⟨"person", 1/2, ⟨0, 0, 50, 50⟩⟩

/-- A classifier output with the conventional label mapping
0 = male, 1 = female. -/
def standardModel : ClassOut :=
  { probs := [3/5, 2/5], id2label := fun i => if i = 0 then "male" else "female" }

/-- A classifier output whose id2label maps 0 to female and 1 to male,
the opposite of the key order the handler hard-codes. -/
def swappedModel : ClassOut :=
  { probs := [9/10, 1/10], id2label := fun i => if i = 0 then "female" else "male" }

/-- A /predict request whose detector reports nobody. -/
def noPersonJob : ImageJob :=
  { content_type := "image/jpeg", decoded := .ok squareImage,
    detections := .ok [], classifier := .ok standardModel }

/-- A /predict request whose detector reports two valid people. -/
def twoPeopleJob : ImageJob :=
  { content_type := "image/jpeg", decoded := .ok squareImage,
    detections := .ok [goodDetection, goodDetection],
    classifier := .ok standardModel }

/-- A /predict request with exactly one valid person. -/
def onePersonJob : ImageJob :=
  { content_type := "image/jpeg", decoded := .ok squareImage,
    detections := .ok [goodDetection], classifier := .ok standardModel }

/-- A /predict request with one valid person and the swapped model. -/
def swappedJob : ImageJob :=
  { content_type := "image/jpeg", decoded := .ok squareImage,
    detections := .ok [goodDetection], classifier := .ok swappedModel }

/-- A /predict request with a non-image declared content type. -/
def textJob : ImageJob :=
  { content_type := "text/plain", decoded := .ok squareImage,
    detections := .ok [goodDetection], classifier := .ok standardModel }

/-- A /predict request whose bytes fail to decode. -/
def badDecodeJob : ImageJob :=
  { content_type := "image/png",
    decoded := .error "cannot identify image file",
    detections := .ok [], classifier := .ok standardModel }

/-- A batch file with one valid person. -/
def okBatchJob : BatchJob :=
  { filename := "a.jpg", content_type := "image/jpeg",
    decoded := .ok squareImage, detections := .ok [goodDetection],
    classifier := .ok standardModel }

/-- A batch file whose detector reports nobody. -/
def emptyBatchJob : BatchJob :=
  { filename := "b.jpg", content_type := "image/jpeg",
    decoded := .ok squareImage, detections := .ok [],
    classifier := .ok standardModel }

/-! Helper lemmas -/

theorem charsStartWith_iff (p : List Char) :
    ∀ s : List Char, charsStartWith p s = true ↔ ∃ t, s = p ++ t := by
  induction p with
  | nil => intro s; simp [charsStartWith]
  | cons a ps ih =>
    intro s
    cases s with
    | nil => simp [charsStartWith]
    | cons c cs =>
      simp only [charsStartWith, Bool.and_eq_true, beq_iff_eq, ih,
        List.cons_append, List.cons.injEq]
      constructor
      · rintro ⟨hac, t, ht⟩
        exact ⟨t, hac.symm, ht⟩
      · rintro ⟨t, hca, ht⟩
        exact ⟨hca.symm, t, ht⟩

theorem charsContain_iff (pat : List Char) :
    ∀ s : List Char, charsContain pat s = true ↔ ∃ a b, s = a ++ pat ++ b := by
  intro s
  induction s with
  | nil =>
    simp only [charsContain, charsStartWith_iff]
    constructor
    · rintro ⟨t, ht⟩
      exact ⟨[], t, by simpa using ht⟩
    · rintro ⟨a, b, hab⟩
      have h1 := List.append_eq_nil.mp hab.symm
      have h2 := List.append_eq_nil.mp h1.1
      exact ⟨[], by simp [h2.2]⟩
  | cons c cs ih =>
    simp only [charsContain, Bool.or_eq_true, charsStartWith_iff, ih]
    constructor
    · rintro (⟨t, ht⟩ | ⟨a, b, hab⟩)
      · exact ⟨[], t, by simpa using ht⟩
      · exact ⟨c :: a, b, by simp [hab]⟩
    · rintro ⟨a, b, hab⟩
      cases a with
      | nil => exact Or.inl ⟨b, by simpa using hab⟩
      | cons x xs =>
        simp only [List.cons_append, List.cons.injEq] at hab
        exact Or.inr ⟨xs, b, hab.2⟩

theorem countValidPeople_foldl (image : Img) :
    ∀ (detections : List Detection) (n : Nat),
      detections.foldl
        (fun valid_people detection =>
          if isValidPerson image detection then valid_people + 1 else valid_people) n
      = n + detections.countP (fun detection => isValidPerson image detection) := by
  intro detections
  induction detections with
  | nil => intro n; simp
  | cons d ds ih =>
    intro n
    simp only [List.foldl_cons, List.countP_cons, ih]
    by_cases h : isValidPerson image d
    · simp [h]; omega
    · simp [h]

theorem countValidPeople_eq_countP (image : Img) (detections : List Detection) :
    countValidPeople image detections
      = detections.countP (fun detection => isValidPerson image detection) := by
  simpa using countValidPeople_foldl image detections 0

theorem listMax_cons (p : ℚ) (q : ℚ) (rest : List ℚ) :
    listMax (p :: q :: rest) = max p (listMax (q :: rest)) := rfl

theorem le_listMax : ∀ (l : List ℚ), ∀ x ∈ l, x ≤ listMax l := by
  intro l
  induction l with
  | nil => intro x hx; cases hx
  | cons p t ih =>
    intro x hx
    rcases List.mem_cons.mp hx with h | h
    · subst h
      cases t with
      | nil => exact le_of_eq rfl
      | cons q rest => rw [listMax_cons]; exact le_max_left _ _
    · cases t with
      | nil => cases h
      | cons q rest =>
        rw [listMax_cons]
        exact le_trans (ih x h) (le_max_right _ _)

theorem listMax_mem : ∀ (l : List ℚ), l ≠ [] → listMax l ∈ l := by
  intro l
  induction l with
  | nil => intro h; exact absurd rfl h
  | cons p t ih =>
    intro _
    cases t with
    | nil => simp [listMax]
    | cons q rest =>
      rw [listMax_cons]
      rcases max_choice p (listMax (q :: rest)) with h | h
      · rw [h]; exact List.mem_cons_self _ _
      · rw [h]; exact List.mem_cons_of_mem _ (ih (by simp))

theorem getD_argmaxIdx : ∀ (l : List ℚ), l ≠ [] →
    l.getD (argmaxIdx l) 0 = listMax l := by
  intro l
  induction l with
  | nil => intro h; exact absurd rfl h
  | cons p t ih =>
    intro _
    cases t with
    | nil => rfl
    | cons q rest =>
      rw [listMax_cons]
      show (p :: q :: rest).getD
        (if listMax (q :: rest) > p then argmaxIdx (q :: rest) + 1 else 0) 0
        = max p (listMax (q :: rest))
      by_cases h : listMax (q :: rest) > p
      · rw [if_pos h, List.getD_cons_succ, ih (by simp),
          max_eq_right (le_of_lt h)]
      · rw [if_neg h, List.getD_cons_zero,
          max_eq_left (le_of_not_lt h)]

theorem batchItemFlow_filename (job : BatchJob) (r : BatchItemResult)
    (h : batchItemFlow job = .ok r) : r.filename = job.filename := by
  unfold batchItemFlow at h
  split at h
  · cases h; rfl
  · split at h
    · cases h
    · dsimp only at h
      split at h
      · cases h; rfl
      · split at h
        · cases h
        · split at h
          · cases h; rfl
          · cases h

theorem processBatchItem_filename (job : BatchJob) :
    (processBatchItem job).filename = job.filename := by
  unfold processBatchItem
  cases h : batchItemFlow job with
  | ok r => exact batchItemFlow_filename job r h
  | error e => rfl

/-! Evaluation on the concrete test data -/

theorem jpeg_is_image : pyStartsWith "image/jpeg" "image/" = true := by decide

theorem goodDetection_valid : isValidPerson squareImage goodDetection = true := by
  have h : labelHasPerson "person" = true := by decide
  simp only [isValidPerson, goodDetection, squareImage, h, if_true]
  norm_num

theorem count_good_one :
    count_people_in_image squareImage (.ok [goodDetection]) = 1 := by
  simp [count_people_in_image, countValidPeople, goodDetection_valid]

theorem count_good_two :
    count_people_in_image squareImage (.ok [goodDetection, goodDetection]) = 2 := by
  simp [count_people_in_image, countValidPeople, goodDetection_valid]

/-- The success path of `predict_gender`, as one equation: with an image
content type, a decodable image, a person count of exactly 1 and a
classifier row of length at least 2, the handler returns the argmax
label, the maximum probability, and the hard-coded two-key mapping. -/
theorem predict_gender_success (job : ImageJob) (image : Img) (cls : ClassOut)
    (hct : pyStartsWith job.content_type "image/" = true)
    (himg : job.decoded = .ok image)
    (hcount : count_people_in_image image job.detections = 1)
    (hcls : job.classifier = .ok cls)
    (hlen : 2 ≤ cls.probs.length) :
    predict_gender job = .ok
      { prediction := some (cls.id2label (argmaxIdx cls.probs)),
        confidence := listMax cls.probs,
        person_count := 1,
        probabilities := some
          [("male", cls.probs.getD 0 0), ("female", cls.probs.getD 1 0)],
        error := none } := by
  simp [predict_gender, predictFlow, classifySingle, hct, himg, hcount, hcls, hlen]

/-! Claim theorems -/

/-- Claim C1: the person-count filter counts a detector output item as a
valid person iff its label denotes person, its confidence score exceeds
0.7, its relative area exceeds 0.05 and its relative height exceeds 0.2;
the returned count is the number of such items, so an item failing any
one of the thresholds is never counted. -/
theorem C1_filter_thresholds (image : Img) (detections : List Detection)
    (d : Detection) :
    countValidPeople image detections
      = detections.countP (fun x => isValidPerson image x) ∧
    (isValidPerson image d = true ↔
      (labelHasPerson d.label = true ∧
       d.score > 0.7 ∧
       ((d.box.xmax - d.box.xmin) * (d.box.ymax - d.box.ymin)) /
         (image.width * image.height) > 0.05 ∧
       (d.box.ymax - d.box.ymin) / image.height > 0.2)) ∧
    ((d.score ≤ 0.7 ∨
      ((d.box.xmax - d.box.xmin) * (d.box.ymax - d.box.ymin)) /
        (image.width * image.height) ≤ 0.05 ∨
      (d.box.ymax - d.box.ymin) / image.height ≤ 0.2) →
      isValidPerson image d = false) := by
  refine ⟨countValidPeople_eq_countP image detections, ?_, ?_⟩
  · unfold isValidPerson
    by_cases h : labelHasPerson d.label
    · simp [h]
    · simp [h]
  · intro hbad
    unfold isValidPerson
    by_cases h : labelHasPerson d.label
    · simp only [h, if_true, decide_eq_false_iff_not]
      rintro ⟨h1, h2, h3⟩
      rcases hbad with hb | hb | hb
      · exact absurd h1 (not_lt.mpr hb)
      · exact absurd h2 (not_lt.mpr hb)
      · exact absurd h3 (not_lt.mpr hb)
    · simp [h]

/-- Claim C2: when the detector call raises, `count_people_in_image`
swallows the exception and returns exactly 1 — never 0 and never a
propagated error. -/
theorem C2_detector_failure_defaults_to_one (image : Img) (e : String) :
    count_people_in_image image (.error e) = 1 ∧
    count_people_in_image image (.error e) ≠ 0 :=
  ⟨rfl, by simp [count_people_in_image]⟩

/-- Claim C9: the person test of the filter is a case-insensitive substring
match — a detection is counted iff the lowercased label contains the
substring person and the three thresholds hold, and a detection whose
lowercased label has no such substring is never counted, whatever its
score and box. -/
theorem C9_label_case_insensitive_substring (image : Img) (d : Detection) :
    (labelHasPerson d.label = true ↔
      ∃ a b, d.label.toList.map Char.toLower = a ++ "person".toList ++ b) ∧
    (isValidPerson image d = true ↔
      ((∃ a b, d.label.toList.map Char.toLower = a ++ "person".toList ++ b) ∧
       d.score > 0.7 ∧
       ((d.box.xmax - d.box.xmin) * (d.box.ymax - d.box.ymin)) /
         (image.width * image.height) > 0.05 ∧
       (d.box.ymax - d.box.ymin) / image.height > 0.2)) ∧
    ((∀ a b, d.label.toList.map Char.toLower ≠ a ++ "person".toList ++ b) →
      isValidPerson image d = false) := by
  have hsub : labelHasPerson d.label = true ↔
      ∃ a b, d.label.toList.map Char.toLower = a ++ "person".toList ++ b := by
    unfold labelHasPerson pyLower
    exact charsContain_iff "person".toList (d.label.toList.map Char.toLower)
  refine ⟨hsub, ?_, ?_⟩
  · unfold isValidPerson
    by_cases h : labelHasPerson d.label
    · simp only [h, if_true, decide_eq_true_eq]
      constructor
      · intro hth
        exact ⟨hsub.mp h, hth⟩
      · intro hth
        exact hth.2
    · simp only [h, if_false, Bool.false_eq_true, false_iff]
      intro hall
      exact h (hsub.mpr hall.1)
  · intro hnone
    unfold isValidPerson
    have h : labelHasPerson d.label = false := by
      rcases Bool.eq_false_or_eq_true (labelHasPerson d.label) with ht | hf
      · rcases hsub.mp ht with ⟨a, b, hab⟩
        exact absurd hab (hnone a b)
      · exact hf
    simp [h]

/-- Claim C1 witness: a passing detection is counted and a detection
with score 0.5 is rejected, via the claim theorem on concrete data. -/
theorem C1_filter_thresholds_witness :
    isValidPerson squareImage goodDetection = true ∧
    isValidPerson squareImage faintDetection = false :=
  ⟨(C1_filter_thresholds squareImage [] goodDetection).2.1.mpr
     ⟨by decide,
      by norm_num [goodDetection, squareImage],
      by norm_num [goodDetection, squareImage],
      by norm_num [goodDetection, squareImage]⟩,
   (C1_filter_thresholds squareImage [] faintDetection).2.2
     (Or.inl (by norm_num [faintDetection]))⟩

/-- Claim C2 witness: the detector-failure default instantiated on a
concrete image and exception message. -/
theorem C2_detector_failure_defaults_to_one_witness :
    count_people_in_image squareImage (.error "CUDA out of memory") = 1 ∧
    count_people_in_image squareImage (.error "CUDA out of memory") ≠ 0 :=
  C2_detector_failure_defaults_to_one squareImage "CUDA out of memory"

/-- Claim C9 witness: the label Personnel passes the substring test and
is counted, the label dog never is, via the claim theorem on concrete
data. -/
theorem C9_label_case_insensitive_substring_witness :
    isValidPerson squareImage personnelDetection = true ∧
    isValidPerson squareImage dogDetection = false := by
  constructor
  · exact (C9_label_case_insensitive_substring squareImage personnelDetection).2.1.mpr
      ⟨⟨[], "nel".toList, by decide⟩,
       by norm_num [personnelDetection, squareImage],
       by norm_num [personnelDetection, squareImage],
       by norm_num [personnelDetection, squareImage]⟩
  · refine (C9_label_case_insensitive_substring squareImage dogDetection).2.2 ?_
    intro a b hab
    have h1 := (C9_label_case_insensitive_substring squareImage dogDetection).1.mpr
      ⟨a, b, hab⟩
    have h2 : labelHasPerson dogDetection.label = false := by decide
    simp [h2] at h1

/-- Claim C3, counterexample to the exact wording: on a request whose
detector reports nobody, the payload error string is
"No person detected in image", which is not the claimed exact string
"No person detected". -/
theorem C3_counterexample_exact_message :
    predict_gender noPersonJob
      = .ok { prediction := none, confidence := 0, person_count := 0,
              probabilities := none,
              error := some "No person detected in image" } ∧
    some "No person detected in image" ≠ some "No person detected" := by
  constructor
  · simp [predict_gender, predictFlow, noPersonJob, jpeg_is_image,
      count_people_in_image, countValidPeople]
  · decide

/-- Claim C3 as amended: a decodable /predict request with person count
zero gets a 200 payload with error "No person detected in image",
prediction null, confidence 0, person count 0; with count N greater
than 1 it gets a 200 payload with prediction null, confidence 0,
person count N and an error message that contains the count. -/
theorem C3_soft_error_payloads (job : ImageJob) (image : Img)
    (hct : pyStartsWith job.content_type "image/" = true)
    (himg : job.decoded = .ok image) :
    (count_people_in_image image job.detections = 0 →
      predict_gender job = .ok
        { prediction := none, confidence := 0, person_count := 0,
          probabilities := none,
          error := some "No person detected in image" }) ∧
    (∀ n, 1 < n → count_people_in_image image job.detections = n →
      predict_gender job = .ok
        { prediction := none, confidence := 0, person_count := n,
          probabilities := none,
          error := some ("Multiple people detected (" ++ toString n ++
            " people). Please use single-person images.") } ∧
      ∃ a b, ("Multiple people detected (" ++ toString n ++
          " people). Please use single-person images.").toList
        = a ++ (toString n).toList ++ b) := by
  constructor
  · intro hcount
    simp [predict_gender, predictFlow, hct, himg, hcount]
  · intro n hn hcount
    constructor
    · have hne : ¬ n = 0 := by omega
      simp [predict_gender, predictFlow, hct, himg, hcount, hne, hn]
    · refine ⟨"Multiple people detected (".toList,
        (" people). Please use single-person images.").toList, ?_⟩
      simp [String.toList]

/-- Claim C3 witness: the amended statement instantiated on a
zero-person request and on a two-person request. -/
theorem C3_soft_error_payloads_witness :
    predict_gender noPersonJob = .ok
      { prediction := none, confidence := 0, person_count := 0,
        probabilities := none,
        error := some "No person detected in image" } ∧
    predict_gender twoPeopleJob = .ok
      { prediction := none, confidence := 0, person_count := 2,
        probabilities := none,
        error := some ("Multiple people detected (" ++ toString 2 ++
          " people). Please use single-person images.") } :=
  ⟨(C3_soft_error_payloads noPersonJob squareImage (by decide) rfl).1 rfl,
   ((C3_soft_error_payloads twoPeopleJob squareImage (by decide) rfl).2
     2 (by omega) count_good_two).1⟩

/-- Claim C4: with exactly one counted person, /predict runs the
classifier and returns the argmax label as a non-null prediction, the
maximum class probability as confidence, person count 1, the per-class
probability mapping built from row positions 0 and 1, and a null error;
moreover the argmax entry of the row is the maximum, and every row entry
is bounded by the returned confidence. -/
theorem C4_single_person_success (job : ImageJob) (image : Img) (cls : ClassOut)
    (hct : pyStartsWith job.content_type "image/" = true)
    (himg : job.decoded = .ok image)
    (hcount : count_people_in_image image job.detections = 1)
    (hcls : job.classifier = .ok cls)
    (hlen : 2 ≤ cls.probs.length) :
    predict_gender job = .ok
      { prediction := some (cls.id2label (argmaxIdx cls.probs)),
        confidence := listMax cls.probs,
        person_count := 1,
        probabilities := some
          [("male", cls.probs.getD 0 0), ("female", cls.probs.getD 1 0)],
        error := none } ∧
    cls.probs.getD (argmaxIdx cls.probs) 0 = listMax cls.probs ∧
    ∀ x ∈ cls.probs, x ≤ listMax cls.probs := by
  have hne : cls.probs ≠ [] := by
    intro h0
    rw [h0] at hlen
    simp at hlen
  exact ⟨predict_gender_success job image cls hct himg hcount hcls hlen,
    getD_argmaxIdx cls.probs hne, le_listMax cls.probs⟩

/-- Claim C4 witness: the single-person request with the conventional
model yields prediction male with confidence 0.6 and the full mapping. -/
theorem C4_single_person_success_witness :
    predict_gender onePersonJob = .ok
      { prediction := some "male", confidence := 3/5, person_count := 1,
        probabilities := some [("male", 3/5), ("female", 2/5)],
        error := none } := by
  have h := (C4_single_person_success onePersonJob squareImage standardModel
    (by decide) rfl count_good_one rfl (by simp [standardModel])).1
  rw [h]
  norm_num [standardModel, argmaxIdx, listMax]

/-- Claim C5: a batch of at most 10 files yields one result entry per
input file, in input order, each tagged with the originating filename;
an item that decodes but whose count is not 1 yields an error entry
"Expected 1 person, found N" with prediction null; no per-item outcome
aborts the batch. -/
theorem C5_batch_per_item_results (files : List BatchJob)
    (h10 : files.length ≤ 10) :
    (∃ results, predict_batch files = .ok results ∧
      results = files.map processBatchItem ∧
      results.length = files.length ∧
      ∀ i : Nat, results[i]?.map BatchItemResult.filename
        = files[i]?.map BatchJob.filename) ∧
    (∀ job : BatchJob, ∀ image : Img,
      pyStartsWith job.content_type "image/" = true →
      job.decoded = .ok image →
      count_people_in_image image job.detections ≠ 1 →
      processBatchItem job =
        { filename := job.filename,
          prediction := none,
          confidence := 0,
          person_count := some (count_people_in_image image job.detections),
          probabilities := none,
          error := some ("Expected 1 person, found "
            ++ toString (count_people_in_image image job.detections)) }) := by
  constructor
  · refine ⟨files.map processBatchItem, ?_, rfl, by simp, ?_⟩
    · unfold predict_batch
      rw [if_neg (by omega)]
    · intro i
      rw [List.getElem?_map]
      cases files[i]? with
      | none => rfl
      | some job => simp [processBatchItem_filename]
  · intro job image hct himg hcount
    have hb : (count_people_in_image image job.detections != 1) = true := by
      simpa using hcount
    simp [processBatchItem, batchItemFlow, hct, himg, hb]

/-- Claim C5 witness: a two-file batch with one single-person image and
one zero-person image returns two entries in order, tagged with the
filenames, the second being the mismatch error entry. -/
theorem C5_batch_per_item_results_witness :
    predict_batch [okBatchJob, emptyBatchJob]
      = .ok [processBatchItem okBatchJob, processBatchItem emptyBatchJob] ∧
    processBatchItem emptyBatchJob =
      { filename := "b.jpg",
        prediction := none,
        confidence := 0,
        person_count := some 0,
        probabilities := none,
        error := some ("Expected 1 person, found " ++ toString 0) } := by
  constructor
  · rcases (C5_batch_per_item_results [okBatchJob, emptyBatchJob]
      (by simp)).1 with ⟨results, h1, h2, _, _⟩
    rw [h1, h2]
    rfl
  · have h := (C5_batch_per_item_results [okBatchJob, emptyBatchJob]
      (by simp)).2 emptyBatchJob squareImage (by decide) rfl (by decide)
    rw [h]
    rfl

/-- Claim C6: a batch of more than 10 files is rejected whole with a 400
error carrying no result list; a batch of at most 10 files proceeds to
per-item processing. -/
theorem C6_batch_size_limit (files : List BatchJob) :
    (files.length > 10 →
      predict_batch files = .httpError 400 "Maximum 10 images per batch") ∧
    (files.length ≤ 10 →
      predict_batch files = .ok (files.map processBatchItem)) := by
  constructor
  · intro h
    unfold predict_batch
    rw [if_pos h]
  · intro h
    unfold predict_batch
    rw [if_neg (by omega)]

/-- Claim C6 witness: eleven files are rejected with the 400 error, an
empty batch is processed. -/
theorem C6_batch_size_limit_witness :
    predict_batch (List.replicate 11 emptyBatchJob)
      = .httpError 400 "Maximum 10 images per batch" ∧
    predict_batch ([] : List BatchJob) = .ok [] :=
  ⟨(C6_batch_size_limit (List.replicate 11 emptyBatchJob)).1 (by simp),
   (C6_batch_size_limit []).2 (by simp)⟩

/-- Claim C7: a /predict file whose declared content type is not an
image type is rejected with a 400 before any processing; an exception
raised during the flow, decode failure included, surfaces as a 500
whose detail contains the exception message. -/
theorem C7_content_type_and_exceptions (job : ImageJob) :
    (pyStartsWith job.content_type "image/" = false →
      predict_gender job = .httpError 400 "File must be an image") ∧
    (∀ e, pyStartsWith job.content_type "image/" = true →
      job.decoded = .error e →
      predict_gender job = .httpError 500 ("Prediction failed: " ++ e) ∧
      ∃ a b, ("Prediction failed: " ++ e).toList = a ++ e.toList ++ b) ∧
    (∀ e, pyStartsWith job.content_type "image/" = true →
      predictFlow job = .error e →
      predict_gender job = .httpError 500 ("Prediction failed: " ++ e)) := by
  refine ⟨?_, ?_, ?_⟩
  · intro h
    simp [predict_gender, h]
  · intro e hct hdec
    constructor
    · simp [predict_gender, predictFlow, hct, hdec]
    · refine ⟨"Prediction failed: ".toList, [], ?_⟩
      simp [String.toList]
  · intro e hct hflow
    simp [predict_gender, hct, hflow]

/-- Claim C7 witness: a text file is rejected with the 400, and a decode
failure surfaces as the 500 wrapping the exception message. -/
theorem C7_content_type_and_exceptions_witness :
    predict_gender textJob = .httpError 400 "File must be an image" ∧
    predict_gender badDecodeJob
      = .httpError 500 "Prediction failed: cannot identify image file" := by
  constructor
  · exact (C7_content_type_and_exceptions textJob).1 (by decide)
  · have h := ((C7_content_type_and_exceptions badDecodeJob).2.1
      "cannot identify image file" (by decide) rfl).1
    rw [h]
    rfl

/-- Evaluation of the batch loop body on the single-person batch file:
the success entry carries no probabilities key. -/
theorem processBatchItem_okBatchJob :
    processBatchItem okBatchJob =
      { filename := "a.jpg",
        prediction := some "male",
        confidence := 3/5,
        person_count := some 1,
        probabilities := none,
        error := none } := by
  simp only [processBatchItem, batchItemFlow, okBatchJob, count_good_one]
  norm_num [jpeg_is_image, standardModel, argmaxIdx, listMax]

/-- Claim C8, counterexample: a batch item that passes the filter with
person count 1 is classified, yet its result entry has no probabilities
mapping at all — the loop builds only filename, prediction, confidence,
person count and error. -/
theorem C8_counterexample_no_probabilities :
    predict_batch [okBatchJob] = .ok [processBatchItem okBatchJob] ∧
    (processBatchItem okBatchJob).error = none ∧
    (processBatchItem okBatchJob).prediction = some "male" ∧
    (processBatchItem okBatchJob).person_count = some 1 ∧
    (processBatchItem okBatchJob).probabilities = none := by
  refine ⟨rfl, ?_, ?_, ?_, ?_⟩ <;> rw [processBatchItem_okBatchJob]

/-- Claim C8 as amended: a batch item passing the filter with person
count 1 yields a success entry shaped like a /predict success except
that the probabilities mapping is omitted: filename, argmax prediction,
maximum-probability confidence, person count 1 and a null error. -/
theorem C8_batch_success_item_shape (job : BatchJob) (image : Img)
    (cls : ClassOut)
    (hct : pyStartsWith job.content_type "image/" = true)
    (himg : job.decoded = .ok image)
    (hcount : count_people_in_image image job.detections = 1)
    (hcls : job.classifier = .ok cls)
    (hne : cls.probs ≠ []) :
    processBatchItem job =
      { filename := job.filename,
        prediction := some (cls.id2label (argmaxIdx cls.probs)),
        confidence := listMax cls.probs,
        person_count := some 1,
        probabilities := none,
        error := none } := by
  have hlen : 1 ≤ cls.probs.length := List.length_pos.mpr hne
  simp [processBatchItem, batchItemFlow, hct, himg, hcount, hcls, hlen]

/-- Claim C8 witness: the amended statement instantiated on the
single-person batch file with the conventional model. -/
theorem C8_batch_success_item_shape_witness :
    processBatchItem okBatchJob =
      { filename := okBatchJob.filename,
        prediction := some (standardModel.id2label (argmaxIdx standardModel.probs)),
        confidence := listMax standardModel.probs,
        person_count := some 1,
        probabilities := none,
        error := none } :=
  C8_batch_success_item_shape okBatchJob squareImage standardModel
    (by decide) rfl count_good_one rfl (by simp [standardModel])

/-- Claim C10: every successful /predict response carries a probability
mapping whose keys are exactly male then female, with values read from
row positions 0 and 1 whatever `id2label` says; on a model whose
id2label is swapped, the returned prediction is female while the
mapping assigns female the value 0.1, which is less than the maximum
0.9 — the key named by the prediction need not carry the maximum. -/
theorem C10_probability_keys_fixed (job : ImageJob) (image : Img)
    (cls : ClassOut)
    (hct : pyStartsWith job.content_type "image/" = true)
    (himg : job.decoded = .ok image)
    (hcount : count_people_in_image image job.detections = 1)
    (hcls : job.classifier = .ok cls)
    (hlen : 2 ≤ cls.probs.length) :
    (∃ body, predict_gender job = .ok body ∧
      body.probabilities = some
        [("male", cls.probs.getD 0 0), ("female", cls.probs.getD 1 0)] ∧
      body.probabilities.map (fun l => l.map Prod.fst)
        = some ["male", "female"] ∧
      body.prediction = some (cls.id2label (argmaxIdx cls.probs))) ∧
    (predict_gender swappedJob = .ok
      { prediction := some "female",
        confidence := 9/10,
        person_count := 1,
        probabilities := some [("male", 9/10), ("female", 1/10)],
        error := none } ∧
     ([("male", (9:ℚ)/10), ("female", 1/10)]).lookup "female"
       = some (1/10) ∧
     (1:ℚ)/10 < listMax [9/10, 1/10]) := by
  refine ⟨⟨_, predict_gender_success job image cls hct himg hcount hcls hlen,
    rfl, rfl, rfl⟩, ?_, ?_, ?_⟩
  · have h := predict_gender_success swappedJob squareImage swappedModel
      (by decide) rfl count_good_one rfl (by simp [swappedModel])
    rw [h]
    norm_num [swappedModel, argmaxIdx, listMax]
  · simp [List.lookup]
  · norm_num [listMax]

/-- Claim C10 witness: the swapped-model request, with every hypothesis
discharged on concrete data. -/
theorem C10_probability_keys_fixed_witness :
    predict_gender swappedJob = .ok
      { prediction := some "female",
        confidence := 9/10,
        person_count := 1,
        probabilities := some [("male", 9/10), ("female", 1/10)],
        error := none } ∧
    ([("male", (9:ℚ)/10), ("female", 1/10)]).lookup "female"
      = some (1/10) ∧
    (1:ℚ)/10 < listMax [9/10, 1/10] :=
  (C10_probability_keys_fixed swappedJob squareImage swappedModel
    (by decide) rfl count_good_one rfl (by simp [swappedModel])).2

end GenderApp
